import Mathlib

/-!
Verification of the dexter execution/streaming core against its code.

The development shallowly embeds the three source modules:
  * `server.py`   — per-run `AgentSession.stream`, the dispatcher `worker`,
    the registry and the SSE endpoint `stream_events`;
  * `model.py`    — `call_llm`: structured-output / tool-binding mode
    selection and the transient-failure retry loop;
  * `event_logger.py` — the event encoder (`log_tool_run`, `progress`, …).

Python dict payloads are embedded as the inductive `JValue`; external
collaborators (the task executor, the LLM provider, the JSON codec of the
standard library) are embedded as explicit parameters or as faithful
models noted in their doc comments.
-/

/-- A Python/JSON value, as used for event payloads: `None`, booleans,
integers, strings, lists and string-keyed dicts (insertion order kept). -/
inductive JValue : Type where
  | null : JValue
  | bool (b : Bool) : JValue
  | num (n : Int) : JValue
  | str (s : String) : JValue
  | arr (items : List JValue) : JValue
  | obj (fields : List (String × JValue)) : JValue

/-- Association-list lookup on a dict's fields, first match wins
(dict keys are unique, so this is Python's `dict.get`). -/
def assocLookup : List (String × JValue) → String → Option JValue
  | [], _ => none
  | (k, v) :: rest, key => if k = key then some v else assocLookup rest key

/-- Python `payload.get(key)` for a dict payload; `None` (here `none`) otherwise. -/
def lookupField (p : JValue) (key : String) : Option JValue :=
  match p with
  | JValue.obj fields => assocLookup fields key
  | _ => none

/-- Test `payload.get("type") == "done"` (a non-string or absent `type` never matches). -/
def isDoneEv (p : JValue) : Bool :=
  match lookupField p "type" with
  | some (JValue.str s) => s == "done"
  | _ => false

/-- Test `payload.get("type") == "error"`. -/
def isErrorEv (p : JValue) : Bool :=
  match lookupField p "type" with
  | some (JValue.str s) => s == "error"
  | _ => false

/-- Test `payload.get("type") in {"done", "error"}` — the terminal-event test of
`AgentSession.stream` (server.py line 48). -/
def isTerminal (p : JValue) : Bool := isDoneEv p || isErrorEv p

/-- The `{"type": "done", "answer": answer}` payload emitted by the worker
(server.py line 92). -/
def mkDoneEvent (answer : String) : JValue :=
  JValue.obj [("type", JValue.str "done"), ("answer", JValue.str answer)]

/-- The `{"type": "error", "message": str(exc)}` payload emitted by the worker
(server.py line 95). -/
def mkErrorEvent (msg : String) : JValue :=
  JValue.obj [("type", JValue.str "error"), ("message", JValue.str msg)]

/-! ## `AgentSession.stream` (server.py lines 41–51)

The queue is embedded as the list of payloads that arrive on it, in order.
The loop body dequeues a payload, yields it, and breaks after a terminal
payload; `streamPayloads` returns the sequence of yielded payloads when the
generator runs to completion. -/

/-- The payloads yielded by `AgentSession.stream` over a queue, run to
completion: each payload is yielded, and the loop breaks right after the
first terminal payload. -/
def streamPayloads : List JValue → List JValue
  | [] => []
  | p :: rest => p :: (if isTerminal p then [] else streamPayloads rest)

/-- An action of the `stream` generator: yielding a payload, or setting
`self.finished` (the `finally` block, server.py lines 50–51). -/
inductive SAction : Type where
  | yieldPayload (p : JValue) : SAction
  | setFinished : SAction

/-- The full action trace of `AgentSession.stream`. `cancelAt = some k`
models the consumer closing the generator after receiving `k` payloads
(e.g. on client disconnect): the generator unwinds at its k-th suspension
point, and the `finally` block still runs, so `setFinished` is appended on
every exit path. -/
def streamTrace (queue : List JValue) (cancelAt : Option Nat) : List SAction :=
  let ys := match cancelAt with
    | none => streamPayloads queue
    | some k => (streamPayloads queue).take k
  ys.map SAction.yieldPayload ++ [SAction.setFinished]

/-! ## The dispatcher `worker` (server.py lines 83–97)

The task executor (the external `Agent` collaborator) is embedded by its
observable behaviour: the list `pre` of payloads it emits through its
logger before finishing, and its outcome — `Except.ok answer` when
`agent.run` returns, `Except.error msg` when construction or run raises
(the handler formats the exception as `str(exc)`). -/

/-- An action of the worker thread: emitting a payload into the session,
or setting `session.finished` (the `finally` block, server.py line 97). -/
inductive WAction : Type where
  | emitW (p : JValue) : WAction
  | finishW : WAction

/-- The worker body: the executor's own emissions, then the terminal event
from the `try`/`except` arms, then `finally: session.finished.set()`.
The function is total in `outcome` — an executor failure is converted to an
`error` event and never propagates out of the worker. -/
def worker (pre : List JValue) (outcome : Except String String) : List WAction :=
  (pre.map WAction.emitW) ++
  (match outcome with
   | Except.ok answer => [WAction.emitW (mkDoneEvent answer)]
   | Except.error msg => [WAction.emitW (mkErrorEvent msg)]) ++
  [WAction.finishW]

/-- The payload sequence the worker enqueues on the session, in emission
order (the queue contents seen by `stream`). -/
def workerPayloads (pre : List JValue) (outcome : Except String String) : List JValue :=
  pre ++ (match outcome with
   | Except.ok answer => [mkDoneEvent answer]
   | Except.error msg => [mkErrorEvent msg])

/-! ## `json.dumps(payload, ensure_ascii=False)` (server.py line 46)

Modelled from the Python standard library's `json.dumps` with default
separators and `ensure_ascii=False`: only `"` and `\` and the control
characters below U+0020 are escaped; every other character — in particular
all non-ASCII content — is emitted verbatim. -/

/-- Hex digit for a value below 16, as `json.dumps` writes `\u00XX`. -/
def hexDigit (n : Nat) : Char :=
  if n < 10 then Char.ofNat (48 + n) else Char.ofNat (87 + n)

/-- The escape of one character under `ensure_ascii=False`. -/
def escapeChar (c : Char) : List Char :=
  if c = '"' then ['\\', '"']
  else if c = '\\' then ['\\', '\\']
  else if c = '\n' then ['\\', 'n']
  else if c = '\t' then ['\\', 't']
  else if c = '\r' then ['\\', 'r']
  else if c = '\x08' then ['\\', 'b']
  else if c = '\x0c' then ['\\', 'f']
  else if c.toNat < 32 then
    ['\\', 'u', '0', '0', hexDigit (c.toNat / 16), hexDigit (c.toNat % 16)]
  else [c]

/-- Escape a character list for a JSON string body. -/
def escapeChars : List Char → List Char
  | [] => []
  | c :: cs => escapeChar c ++ escapeChars cs

mutual

/-- Python `json.dumps` with default separators and `ensure_ascii=False`. -/
def dumps : JValue → String
  | JValue.null => "null"
  | JValue.bool true => "true"
  | JValue.bool false => "false"
  | JValue.num n => toString n
  | JValue.str s => "\"" ++ String.mk (escapeChars s.data) ++ "\""
  | JValue.arr items => "[" ++ dumpsItems items ++ "]"
  | JValue.obj fields => "\x7b" ++ dumpsFields fields ++ "\x7d"

/-- Array items joined by the default `", "` separator. -/
def dumpsItems : List JValue → String
  | [] => ""
  | [v] => dumps v
  | v :: w :: rest => dumps v ++ ", " ++ dumpsItems (w :: rest)

/-- Object entries `"key": value` joined by `", "`. -/
def dumpsFields : List (String × JValue) → String
  | [] => ""
  | [(k, v)] => "\"" ++ String.mk (escapeChars k.data) ++ "\": " ++ dumps v
  | (k, v) :: kv :: rest =>
      "\"" ++ String.mk (escapeChars k.data) ++ "\": " ++ dumps v ++ ", " ++
      dumpsFields (kv :: rest)

end

/-- The wire frame yielded by `stream`: the dict `{"data": ...}` holding the
encoded payload (server.py lines 45–47). -/
structure Frame : Type where
  data : String

/-- The frames yielded by `AgentSession.stream` over a queue, run to
completion: each yielded payload wrapped as `{"data": json.dumps(payload)}`. -/
def streamFrames (queue : List JValue) : List Frame :=
  (streamPayloads queue).map (fun p => Frame.mk (dumps p))

/-! ## Registry and `stream_events` (server.py lines 102–113) -/

/-- The session registry `self.sessions`, each session embedded as the
payload sequence its queue receives. -/
def registryGet (sessions : List (String × List JValue)) (rid : String) :
    Option (List JValue) :=
  match sessions with
  | [] => none
  | (k, q) :: rest => if k = rid then some q else registryGet rest rid

/-- Python `self.sessions.pop(run_id, None)`: remove the entry when present,
do nothing otherwise. -/
def popRegistry (sessions : List (String × List JValue)) (rid : String) :
    List (String × List JValue) :=
  sessions.filter (fun kv => kv.1 ≠ rid)

/-- Endpoint `GET /api/run/{run_id}/events`: `HTTPException(404)` when the registry
has no session for `run_id`, otherwise the SSE frame stream adapted from
`session.stream()` (server.py lines 102–113). -/
def stream_events (sessions : List (String × List JValue)) (rid : String) :
    Except Nat (List Frame) :=
  match registryGet sessions rid with
  | none => Except.error 404
  | some q => Except.ok (streamFrames q)

/-- An action of `event_generator`: forwarding one frame, or executing
`self.sessions.pop(run_id, None)` (server.py line 111). -/
inductive GAction : Type where
  | yieldFrame (f : Frame) : GAction
  | popSession : GAction

/-- The action trace of the adapted generator `event_generator`.
`cancelAt = some k` models the client disconnecting after `k` frames: the
generator is closed at its next suspension point, it unwinds there, and —
there being no `try`/`finally` around the loop — the `pop` statement after
the loop does not run. With `cancelAt = none` (or a consumer that keeps
iterating past the last frame) the loop ends normally and `pop` runs. -/
def event_generator (queue : List JValue) (cancelAt : Option Nat) :
    List GAction :=
  let fs := streamFrames queue
  match cancelAt with
  | none => fs.map GAction.yieldFrame ++ [GAction.popSession]
  | some k =>
      if k ≤ fs.length then (fs.take k).map GAction.yieldFrame
      else fs.map GAction.yieldFrame ++ [GAction.popSession]

/-- Number of `popSession` actions in a generator trace. -/
def countPop : List GAction → Nat
  | [] => 0
  | GAction.popSession :: rest => countPop rest + 1
  | GAction.yieldFrame _ :: rest => countPop rest

/-! ## `call_llm` mode selection (model.py lines 36–50)

The environment selectors are embedded as `Option String` (`none` = unset);
`os.getenv(name, default)` is `Option.getD`. Python's `.strip().lower()` is
embedded on the ASCII fragment the selectors use: stripping the ASCII
whitespace characters and lowercasing `A`–`Z`. -/

/-- Python `str.strip()` whitespace test (ASCII fragment). -/
def pyIsSpace (c : Char) : Bool :=
  c = ' ' || c = '\t' || c = '\n' || c = '\r' || c = '\x0b' || c = '\x0c'

/-- Python `str.lower()` on one character (ASCII fragment). -/
def pyToLowerChar (c : Char) : Char :=
  if 65 ≤ c.toNat && c.toNat ≤ 90 then Char.ofNat (c.toNat + 32) else c

/-- Python `s.strip().lower()` (ASCII fragment), as applied to the
`DEXTER_LLM_STRUCTURED_OUTPUT_METHOD` and `DEXTER_LLM_TOOL_BIND` values. -/
def pyStripLower (s : String) : String :=
  String.mk ((((s.data.dropWhile pyIsSpace).reverse.dropWhile pyIsSpace).reverse).map pyToLowerChar)

/-- The runnable `call_llm` builds before invoking the chain: the bare
client, the client with a structured-output schema bound by a method, or
the client with tools bound. -/
inductive Runnable : Type where
  | plain : Runnable
  | structuredOutput (method : String) : Runnable
  | boundTools : Runnable
deriving DecidableEq

/-- The runnable-selection block of `call_llm` (model.py lines 36–50):
with a schema, dispatch on the stripped/lowered structured-output selector
(default `"function_calling"`), treating `"none"` as no binding and any
unrecognized value as `"function_calling"`; otherwise with tools, bind them
unless the tool-bind selector (default `"bind"`) says otherwise. -/
def selectRunnable (hasSchema hasTools : Bool)
    (methodEnv toolBindEnv : Option String) : Runnable :=
  if hasSchema then
    let m := pyStripLower (methodEnv.getD "function_calling")
    if m = "none" then Runnable.plain
    else if m = "function_calling" ∨ m = "json_schema" then
      Runnable.structuredOutput m
    else Runnable.structuredOutput "function_calling"
  else if hasTools then
    let tb := pyStripLower (toolBindEnv.getD "bind")
    if tb = "bind" then Runnable.boundTools else Runnable.plain
  else Runnable.plain

/-! ## `call_llm` retry loop (model.py lines 54–61)

The provider is embedded as a function from the attempt index to that
attempt's result: `Except.ok r` when `chain.invoke` returns `r`,
`Except.error (CallError.transient m)` when it raises `APIConnectionError`,
`Except.error (CallError.other m)` for any other exception. -/

/-- A failure raised by `chain.invoke`: an `APIConnectionError` (transient)
or any other exception. -/
inductive CallError : Type where
  | transient (msg : String) : CallError
  | other (msg : String) : CallError
deriving DecidableEq

/-- How the `for attempt in range(3)` loop ends: a `return`, an uncaught or
re-raised exception, or falling through the loop (unreachable here, kept
for faithfulness to Python's implicit `return None`). -/
inductive CallOutcome (R : Type) : Type where
  | returned (r : R) : CallOutcome R
  | raised (e : CallError) : CallOutcome R
  | fellThrough : CallOutcome R

/-- One pass of the retry loop over the remaining attempt indices.
Returns the loop outcome, the number of `chain.invoke` calls made, and the
list of `time.sleep` delays in seconds (`0.5 * (2 ** attempt)`), in order.
`APIConnectionError` is re-raised as-is when `attempt == 2`; any other
exception is not caught and propagates at once. -/
def retryLoop {R : Type} (f : Nat → Except CallError R) :
    List Nat → CallOutcome R × Nat × List ℚ
  | [] => (CallOutcome.fellThrough, 0, [])
  | a :: rest =>
    match f a with
    | Except.ok r => (CallOutcome.returned r, 1, [])
    | Except.error (CallError.other m) =>
        (CallOutcome.raised (CallError.other m), 1, [])
    | Except.error (CallError.transient m) =>
        if a = 2 then (CallOutcome.raised (CallError.transient m), 1, [])
        else
          let next := retryLoop f rest
          (next.1, next.2.1 + 1, (1 : ℚ) / 2 * 2 ^ a :: next.2.2)

/-- The invocation of `call_llm`'s retry loop: `for attempt in range(3)`. -/
def call_llm {R : Type} (f : Nat → Except CallError R) :
    CallOutcome R × Nat × List ℚ :=
  retryLoop f [0, 1, 2]

/-! ## `json.loads` (event_logger.py line 48)

Modelled from the Python standard library's `json.loads` (an external
collaborator of `log_tool_run`), restricted to the fragment the events
use: `null`, booleans, integer numbers, strings with the standard escapes,
arrays and objects. Fractional/exponent numbers, surrogate-pair `\u`
escapes and the NaN/Infinity extensions are outside the model (the parser
rejects them); duplicate object keys are kept in order rather than
last-wins. -/

/-- Skip JSON whitespace (space, tab, newline, carriage return). -/
def skipWs : List Char → List Char
  | [] => []
  | c :: cs =>
      if c = ' ' || c = '\t' || c = '\n' || c = '\r' then skipWs cs else c :: cs

/-- Value of a hex digit, if any. -/
def hexVal (c : Char) : Option Nat :=
  if 48 ≤ c.toNat && c.toNat ≤ 57 then some (c.toNat - 48)
  else if 97 ≤ c.toNat && c.toNat ≤ 102 then some (c.toNat - 87)
  else if 65 ≤ c.toNat && c.toNat ≤ 70 then some (c.toNat - 55)
  else none

/-- Decimal digit test. -/
def isDigitCh (c : Char) : Bool := 48 ≤ c.toNat && c.toNat ≤ 57

/-- The body of a JSON string after the opening quote: the decoded
characters and the remaining input after the closing quote. -/
def parseStringBody : List Char → Option (List Char × List Char)
  | [] => none
  | c :: cs =>
    if c = '"' then some ([], cs)
    else if c = '\\' then
      match cs with
      | [] => none
      | e :: cs2 =>
        let simple : Option Char :=
          if e = '"' then some '"'
          else if e = '\\' then some '\\'
          else if e = '/' then some '/'
          else if e = 'b' then some '\x08'
          else if e = 'f' then some '\x0c'
          else if e = 'n' then some '\n'
          else if e = 'r' then some '\r'
          else if e = 't' then some '\t'
          else none
        match simple with
        | some d =>
          match parseStringBody cs2 with
          | some (body, rest) => some (d :: body, rest)
          | none => none
        | none =>
          if e = 'u' then
            match cs2 with
            | h1 :: h2 :: h3 :: h4 :: cs3 =>
              match hexVal h1, hexVal h2, hexVal h3, hexVal h4 with
              | some a, some b, some k, some d =>
                match parseStringBody cs3 with
                | some (body, rest) =>
                    some (Char.ofNat (((a * 16 + b) * 16 + k) * 16 + d) :: body, rest)
                | none => none
              | _, _, _, _ => none
            | _ => none
          else none
    else if c.toNat < 32 then none
    else
      match parseStringBody cs with
      | some (body, rest) => some (c :: body, rest)
      | none => none

/-- A JSON integer literal: optional minus, digits, no leading zero, and
not followed by a fraction or exponent (outside the modelled fragment). -/
def parseNumber (cs : List Char) : Option (JValue × List Char) :=
  let (neg, cs1) := match cs with
    | '-' :: rest => (true, rest)
    | _ => (false, cs)
  let digits := cs1.takeWhile isDigitCh
  let rest := cs1.dropWhile isDigitCh
  if digits = [] then none
  else if digits.length > 1 && digits.headD '0' = '0' then none
  else
    match rest with
    | '.' :: _ => none
    | 'e' :: _ => none
    | 'E' :: _ => none
    | _ =>
      let n : Nat := digits.foldl (fun a c => a * 10 + (c.toNat - 48)) 0
      some (JValue.num (if neg then -(n : Int) else (n : Int)), rest)

mutual

/-- A JSON value at the head of the input (leading whitespace already
skipped); returns the value and the remaining input. -/
def parseValue : Nat → List Char → Option (JValue × List Char)
  | 0, _ => none
  | _ + 1, [] => none
  | fuel + 1, c :: cs =>
    if c = 'n' then
      match cs with
      | 'u' :: 'l' :: 'l' :: rest => some (JValue.null, rest)
      | _ => none
    else if c = 't' then
      match cs with
      | 'r' :: 'u' :: 'e' :: rest => some (JValue.bool true, rest)
      | _ => none
    else if c = 'f' then
      match cs with
      | 'a' :: 'l' :: 's' :: 'e' :: rest => some (JValue.bool false, rest)
      | _ => none
    else if c = '"' then
      match parseStringBody cs with
      | some (body, rest) => some (JValue.str (String.mk body), rest)
      | none => none
    else if c = '[' then
      match skipWs cs with
      | ']' :: rest => some (JValue.arr [], rest)
      | cs1 =>
        match parseValue fuel cs1 with
        | some (v, rest) => parseArrayTail fuel [v] rest
        | none => none
    else if c = '\x7b' then
      match skipWs cs with
      | '\x7d' :: rest => some (JValue.obj [], rest)
      | cs1 =>
        match parseMember fuel cs1 with
        | some (kv, rest) => parseObjTail fuel [kv] rest
        | none => none
    else parseNumber (c :: cs)

/-- After one or more array items: a `,` and another item, or the closing
bracket. `acc` holds the items parsed so far, in reverse. -/
def parseArrayTail : Nat → List JValue → List Char → Option (JValue × List Char)
  | 0, _, _ => none
  | fuel + 1, acc, cs =>
    match skipWs cs with
    | ']' :: rest => some (JValue.arr acc.reverse, rest)
    | ',' :: rest =>
      match parseValue fuel (skipWs rest) with
      | some (v, rest2) => parseArrayTail fuel (v :: acc) rest2
      | none => none
    | _ => none

/-- One `"key": value` object member (leading whitespace already skipped). -/
def parseMember : Nat → List Char → Option ((String × JValue) × List Char)
  | 0, _ => none
  | fuel + 1, cs =>
    match cs with
    | '"' :: cs1 =>
      match parseStringBody cs1 with
      | some (key, rest) =>
        match skipWs rest with
        | ':' :: rest2 =>
          match parseValue fuel (skipWs rest2) with
          | some (v, rest3) => some ((String.mk key, v), rest3)
          | none => none
        | _ => none
      | none => none
    | _ => none

/-- After one or more object members: a `,` and another member, or the
closing brace. `acc` holds the members parsed so far, in reverse. -/
def parseObjTail : Nat → List (String × JValue) → List Char →
    Option (JValue × List Char)
  | 0, _, _ => none
  | fuel + 1, acc, cs =>
    match skipWs cs with
    | '\x7d' :: rest => some (JValue.obj acc.reverse, rest)
    | ',' :: rest =>
      match parseMember fuel (skipWs rest) with
      | some (kv, rest2) => parseObjTail fuel (kv :: acc) rest2
      | none => none
    | _ => none

end

/-- Python `json.loads(s)`: parse one JSON document with surrounding whitespace;
`none` models a raised `JSONDecodeError`. The fuel `2 * |s| + 2` dominates
the recursion depth, every recursive call first consuming input. -/
def loads (s : String) : Option JValue :=
  match parseValue (2 * s.data.length + 2) (skipWs s.data) with
  | some (v, rest) => if skipWs rest = [] then some v else none
  | none => none

/-! ## `EventLogger.log_tool_run` (event_logger.py lines 43–52) -/

/-- Method `EventLogger.log_tool_run(tool, result="")`: the emitted `tool_run`
payload. When `result` is non-empty, `json.loads` is attempted; the Python
variable `parsed` is `None` both when decoding fails and when the document
decodes to JSON `null`, and `parsed if parsed is not None else result`
then embeds the raw string in both of those cases. -/
def log_tool_run (tool result : String) : JValue :=
  let base := [("type", JValue.str "tool_run"), ("tool", JValue.str tool)]
  if result = "" then JValue.obj base
  else
    let resVal := match loads result with
      | some JValue.null => JValue.str result
      | some v => v
      | none => JValue.str result
    JValue.obj (base ++ [("result", resVal)])

/-! ## `EventLogger.progress` (event_logger.py lines 67–82) -/

/-- Python `str.replace(pat, rep)` on character lists, for a non-empty
pattern: replace every non-overlapping occurrence, scanning left to right
(the empty-pattern behaviour of Python is outside the model; the call site
uses the literal pattern `"..."`). -/
def pyReplaceAux (pat rep : List Char) : Nat → List Char → List Char
  | 0, s => s
  | _ + 1, [] => []
  | fuel + 1, c :: rest =>
      if pat ≠ [] ∧ pat.isPrefixOf (c :: rest) then
        rep ++ pyReplaceAux pat rep fuel (rest.drop (pat.length - 1))
      else c :: pyReplaceAux pat rep fuel rest

/-- Python `str.replace(pat, rep)` on character lists (see `pyReplaceAux`;
the fuel `|s|` dominates the scan, which consumes input at every step). -/
def pyReplace (pat rep s : List Char) : List Char :=
  pyReplaceAux pat rep s.length s

/-- The call `message.replace("...", " ✓")` (event_logger.py line 72). -/
def deriveCompleted (message : String) : String :=
  String.mk (pyReplace "...".data " ✓".data message.data)

/-- Method `EventLogger.progress(message, success_message="")` as a scoped
operation. The body of the `with` block is embedded by its outcome:
`Except.ok ()` for normal completion, `Except.error exc` when it raises
(with `exc` its failure text as interpolated by the f-string). Returns the
emitted payloads in order and the outcome seen by the caller — the
`except` arm re-raises, so a body failure is returned unchanged. -/
def progress (message success_message : String) (body : Except String Unit) :
    List JValue × Except String Unit :=
  let startEv := JValue.obj
    [("type", JValue.str "progress"), ("status", JValue.str "start"),
     ("message", JValue.str message)]
  match body with
  | Except.ok _ =>
    let completed :=
      if success_message = "" then deriveCompleted message else success_message
    ([startEv,
      JValue.obj [("type", JValue.str "progress"),
                  ("status", JValue.str "complete"),
                  ("message", JValue.str completed)]],
     Except.ok ())
  | Except.error exc =>
    ([startEv,
      JValue.obj [("type", JValue.str "progress"),
                  ("status", JValue.str "error"),
                  ("message", JValue.str (message ++ " failed: " ++ exc))]],
     Except.error exc)

/-- Modelled from the spec's words, for comparison with the code: a
completion message that "replaces a trailing ellipsis in `message` with a
completion mark, else reuses `message`". -/
def specDerivedMessage (message : String) : String :=
  if message.data.reverse.take 3 = ['.', '.', '.'] then
    String.mk (message.data.take (message.data.length - 3) ++ [' ', '✓'])
  else message

/-! ## Dispatcher argument defaulting (server.py lines 86–90) -/

/-- Python `v or d` for an optional integer: `d` when `v` is `None` or the
falsy integer `0`, otherwise the given integer. -/
def pyOrInt (v : Option Int) (d : Int) : Int :=
  match v with
  | none => d
  | some n => if n = 0 then d else n

/-- The step-limit arguments of the `Agent(...)` constructor call. -/
structure AgentArgs : Type where
  max_steps : Int
  max_steps_per_task : Int
deriving DecidableEq

/-- The arguments the worker passes to the task executor:
`request.max_steps or 20` and `request.max_steps_per_task or 5`. -/
def workerAgentArgs (max_steps max_steps_per_task : Option Int) : AgentArgs :=
  { max_steps := pyOrInt max_steps 20,
    max_steps_per_task := pyOrInt max_steps_per_task 5 }

/-! ## Theorems -/

/-- The stream loop over a queue containing a terminal payload yields a
(possibly empty) run of non-terminal payloads followed by exactly one
terminal payload, and nothing after it. -/
theorem streamPayloads_split (queue : List JValue)
    (h : ∃ p ∈ queue, isTerminal p = true) :
    ∃ pre t, streamPayloads queue = pre ++ [t] ∧ isTerminal t = true ∧
      ∀ p ∈ pre, isTerminal p = false := by
  induction queue with
  | nil => simp at h
  | cons p rest ih =>
    by_cases hp : isTerminal p = true
    · exact ⟨[], p, by simp [streamPayloads, hp], hp, by simp⟩
    · have hrest : ∃ q ∈ rest, isTerminal q = true := by
        obtain ⟨q, hq, hqt⟩ := h
        rcases List.mem_cons.mp hq with rfl | hq'
        · exact absurd hqt hp
        · exact ⟨q, hq', hqt⟩
      obtain ⟨pre, t, heq, ht, hpre⟩ := ih hrest
      refine ⟨p :: pre, t, ?_, ht, ?_⟩
      · simp [streamPayloads, hp, heq]
      · intro q hq
        rcases List.mem_cons.mp hq with rfl | hq'
        · simpa using hp
        · exact hpre q hq'

/-- A terminal payload has type `done` or type `error`, never both: the
single `type` field cannot equal the two distinct strings at once. -/
theorem terminal_done_xor_error (t : JValue) (h : isTerminal t = true) :
    isDoneEv t ≠ isErrorEv t := by
  have hde : ¬(isDoneEv t = true ∧ isErrorEv t = true) := by
    rintro ⟨hd, he⟩
    unfold isDoneEv at hd
    unfold isErrorEv at he
    cases hf : lookupField t "type" with
    | none => rw [hf] at hd; exact absurd hd (by simp)
    | some v =>
      cases v <;> rw [hf] at hd he <;> simp at hd he
      exact absurd (hd ▸ he) (by decide)
  unfold isTerminal at h
  cases hd : isDoneEv t <;> cases he : isErrorEv t
  · rw [hd, he] at h; simp at h
  · simp
  · simp
  · exact absurd ⟨hd, he⟩ hde

/-- C1: for every session, a stream over a queue that receives a terminal
event yields exactly one terminal event (of type `done` xor type `error`)
as its last yield, with only non-terminal events before it and none after;
and on any exit of the generator — normal termination or cancellation at
any point — the final action is setting the Session's `finished` flag. -/
theorem stream_terminal_spec : ∀ (queue : List JValue) (cancelAt : Option Nat),
    ((∃ p ∈ queue, isTerminal p = true) →
      ∃ pre t, streamPayloads queue = pre ++ [t] ∧ isTerminal t = true ∧
        isDoneEv t ≠ isErrorEv t ∧ ∀ p ∈ pre, isTerminal p = false) ∧
    (streamTrace queue cancelAt).getLast? = some SAction.setFinished := by
  intro queue cancelAt
  constructor
  · intro h
    obtain ⟨pre, t, heq, ht, hpre⟩ := streamPayloads_split queue h
    exact ⟨pre, t, heq, ht, terminal_done_xor_error t ht, hpre⟩
  · unfold streamTrace
    simp

/-- C1 witness: a queue holding one `done` event, streamed without
cancellation. -/
theorem stream_terminal_spec_witness :
    (∃ p ∈ [mkDoneEvent "ok"], isTerminal p = true) ∧
    (∃ pre t, streamPayloads [mkDoneEvent "ok"] = pre ++ [t] ∧
      isTerminal t = true ∧ isDoneEv t ≠ isErrorEv t ∧
      ∀ p ∈ pre, isTerminal p = false) :=
  ⟨⟨mkDoneEvent "ok", by simp, rfl⟩,
   (stream_terminal_spec [mkDoneEvent "ok"] none).1
     ⟨mkDoneEvent "ok", by simp, rfl⟩⟩

/-- C2: for every run, the worker emits the executor's events followed by
`{type: done, answer}` when the executor returns an answer and by
`{type: error, message}` when it raises — the failure is absorbed into the
trace, never propagated — and its last action is always marking the
Session finished. -/
theorem worker_spec : ∀ (pre : List JValue) (outcome : Except String String),
    (∀ answer, outcome = Except.ok answer →
      worker pre outcome =
        pre.map WAction.emitW ++
          [WAction.emitW (mkDoneEvent answer), WAction.finishW]) ∧
    (∀ msg, outcome = Except.error msg →
      worker pre outcome =
        pre.map WAction.emitW ++
          [WAction.emitW (mkErrorEvent msg), WAction.finishW]) ∧
    (worker pre outcome).getLast? = some WAction.finishW := by
  intro pre outcome
  refine ⟨?_, ?_, ?_⟩
  · rintro a rfl; simp [worker]
  · rintro m rfl; simp [worker]
  · unfold worker
    cases outcome <;> simp

/-- C2 witness: a failing executor with one prior log event. -/
theorem worker_spec_witness :
    worker [mkDoneEvent "x"] (Except.error "boom") =
      [WAction.emitW (mkDoneEvent "x"), WAction.emitW (mkErrorEvent "boom"),
       WAction.finishW] := by
  simpa using
    ((worker_spec [mkDoneEvent "x"] (Except.error "boom")).2.1 "boom" rfl)

/-- C3: for every call, transient-connection failures are retried up to 2
additional times (3 attempts total) with delays 0.5s then 1.0s; after 3
consecutive transient failures the final attempt's failure is re-raised
unchanged; a success on any attempt is returned with no further retries;
a non-transient failure propagates immediately with no retry. -/
theorem call_llm_retry_spec : ∀ {R : Type} (f : Nat → Except CallError R),
    (∀ m0 m1 m2,
      f 0 = Except.error (CallError.transient m0) →
      f 1 = Except.error (CallError.transient m1) →
      f 2 = Except.error (CallError.transient m2) →
      call_llm f =
        (CallOutcome.raised (CallError.transient m2), 3, [1 / 2, 1])) ∧
    (∀ r, f 0 = Except.ok r → call_llm f = (CallOutcome.returned r, 1, [])) ∧
    (∀ m0 r,
      f 0 = Except.error (CallError.transient m0) → f 1 = Except.ok r →
      call_llm f = (CallOutcome.returned r, 2, [1 / 2])) ∧
    (∀ m0 m1 r,
      f 0 = Except.error (CallError.transient m0) →
      f 1 = Except.error (CallError.transient m1) → f 2 = Except.ok r →
      call_llm f = (CallOutcome.returned r, 3, [1 / 2, 1])) ∧
    (∀ m, f 0 = Except.error (CallError.other m) →
      call_llm f = (CallOutcome.raised (CallError.other m), 1, [])) ∧
    (∀ m0 m,
      f 0 = Except.error (CallError.transient m0) →
      f 1 = Except.error (CallError.other m) →
      call_llm f = (CallOutcome.raised (CallError.other m), 2, [1 / 2])) ∧
    (∀ m0 m1 m,
      f 0 = Except.error (CallError.transient m0) →
      f 1 = Except.error (CallError.transient m1) →
      f 2 = Except.error (CallError.other m) →
      call_llm f = (CallOutcome.raised (CallError.other m), 3, [1 / 2, 1])) := by
  intro R f
  refine ⟨?_, ?_, ?_, ?_, ?_, ?_, ?_⟩
  · intro m0 m1 m2 h0 h1 h2
    norm_num [call_llm, retryLoop, h0, h1, h2]
  · intro r h0
    norm_num [call_llm, retryLoop, h0]
  · intro m0 r h0 h1
    norm_num [call_llm, retryLoop, h0, h1]
  · intro m0 m1 r h0 h1 h2
    norm_num [call_llm, retryLoop, h0, h1, h2]
  · intro m h0
    norm_num [call_llm, retryLoop, h0]
  · intro m0 m h0 h1
    norm_num [call_llm, retryLoop, h0, h1]
  · intro m0 m1 m h0 h1 h2
    norm_num [call_llm, retryLoop, h0, h1, h2]

/-- C3 witness: one transient failure followed by a success — the success
is returned on the second attempt after a single 0.5s delay. -/
theorem call_llm_retry_spec_witness :
    call_llm (fun i =>
      if i = 0 then Except.error (CallError.transient "t0")
      else Except.ok (7 : Nat)) =
    (CallOutcome.returned 7, 2, [1 / 2]) :=
  (call_llm_retry_spec (fun i =>
      if i = 0 then Except.error (CallError.transient "t0")
      else Except.ok (7 : Nat))).2.2.1 "t0" 7 rfl rfl

/-- C4: with an output schema supplied, a stripped/lowered selector value
of `none` leaves the call without schema binding; `function_calling` or
`json_schema` binds the schema with that method; any unrecognized value
behaves exactly as `function_calling` (the selection is total — no error);
and an absent selector defaults to `function_calling`. -/
theorem call_llm_mode_spec : ∀ (ht : Bool) (toolBindEnv : Option String),
    (∀ s, pyStripLower s = "none" →
      selectRunnable true ht (some s) toolBindEnv = Runnable.plain) ∧
    (∀ s, pyStripLower s = "function_calling" ∨ pyStripLower s = "json_schema" →
      selectRunnable true ht (some s) toolBindEnv =
        Runnable.structuredOutput (pyStripLower s)) ∧
    (∀ s, pyStripLower s ≠ "none" → pyStripLower s ≠ "function_calling" →
      pyStripLower s ≠ "json_schema" →
      selectRunnable true ht (some s) toolBindEnv =
        Runnable.structuredOutput "function_calling" ∧
      selectRunnable true ht (some s) toolBindEnv =
        selectRunnable true ht (some "function_calling") toolBindEnv) ∧
    (selectRunnable true ht none toolBindEnv =
      Runnable.structuredOutput "function_calling") := by
  intro ht toolBindEnv
  refine ⟨?_, ?_, ?_, ?_⟩
  · intro s h
    simp [selectRunnable, h]
  · intro s h
    rcases h with h | h <;> simp [selectRunnable, h]
  · intro s h1 h2 h3
    refine ⟨by simp [selectRunnable, h1, h2, h3], ?_⟩
    simp [selectRunnable, h1, h2, h3]
    decide
  · rfl

/-- C4 witness: the selector set to `"NONE"` with a schema supplied. -/
theorem call_llm_mode_spec_witness :
    pyStripLower "NONE" = "none" ∧
    selectRunnable true false (some "NONE") none = Runnable.plain :=
  ⟨rfl, (call_llm_mode_spec false none).1 "NONE" rfl⟩

/-- C10: both environment selectors are matched case-insensitively and with
surrounding whitespace stripped — each selection depends on the configured
value only through its stripped, lowered form, so `" JSON_SCHEMA "` behaves
exactly as `json_schema`, `"NONE"` as `none`, and `" BIND "` as `bind`. -/
theorem selector_normalization_spec : ∀ (hs ht : Bool) (me tb : Option String),
    (∀ s u, pyStripLower s = pyStripLower u →
      selectRunnable hs ht (some s) tb = selectRunnable hs ht (some u) tb) ∧
    (∀ s u, pyStripLower s = pyStripLower u →
      selectRunnable hs ht me (some s) = selectRunnable hs ht me (some u)) ∧
    (selectRunnable true ht (some " JSON_SCHEMA ") tb =
        selectRunnable true ht (some "json_schema") tb ∧
      selectRunnable true ht (some " JSON_SCHEMA ") tb =
        Runnable.structuredOutput "json_schema") ∧
    (selectRunnable true ht (some "NONE") tb =
        selectRunnable true ht (some "none") tb ∧
      selectRunnable true ht (some "NONE") tb = Runnable.plain) ∧
    (selectRunnable false true me (some " BIND ") =
        selectRunnable false true me (some "bind") ∧
      selectRunnable false true me (some " BIND ") = Runnable.boundTools) := by
  intro hs ht me tb
  refine ⟨?_, ?_, ⟨rfl, rfl⟩, ⟨rfl, rfl⟩, ⟨rfl, rfl⟩⟩
  · intro s u h
    unfold selectRunnable
    simp only [Option.getD_some, h]
  · intro s u h
    unfold selectRunnable
    simp only [Option.getD_some, h]

/-- C10 witness: two selector spellings with the same normal form select
the same runnable. -/
theorem selector_normalization_spec_witness :
    pyStripLower "  Function_Calling " = pyStripLower "function_calling" ∧
    selectRunnable true false (some "  Function_Calling ") none =
      selectRunnable true false (some "function_calling") none :=
  ⟨rfl,
   (selector_normalization_spec true false none none).1
     "  Function_Calling " "function_calling" rfl⟩

/-- C5 counterexample: the string `"null"` decodes successfully as
structured data (JSON `null`), yet `log_tool_run` embeds the raw string —
`parsed is not None` conflates a decoded `null` with a decode failure. -/
theorem log_tool_run_null_counterexample :
    loads "null" = some JValue.null ∧
    log_tool_run "t" "null" =
      JValue.obj [("type", JValue.str "tool_run"), ("tool", JValue.str "t"),
                  ("result", JValue.str "null")] ∧
    JValue.str "null" ≠ JValue.null :=
  ⟨rfl, rfl, fun h => JValue.noConfusion h⟩

/-- C5 (amended): with an empty `result` the `tool_run` event has no
`result` field; with a non-empty `result` that decodes as structured data
other than JSON `null`, the decoded value is embedded; when decoding fails
— or yields JSON `null` — the raw string is embedded unchanged. -/
theorem log_tool_run_spec : ∀ (tool result : String),
    (result = "" → lookupField (log_tool_run tool result) "result" = none) ∧
    (∀ v, result ≠ "" → loads result = some v → v ≠ JValue.null →
      lookupField (log_tool_run tool result) "result" = some v) ∧
    (result ≠ "" → loads result = none →
      lookupField (log_tool_run tool result) "result" = some (JValue.str result)) ∧
    (result ≠ "" → loads result = some JValue.null →
      lookupField (log_tool_run tool result) "result" = some (JValue.str result)) := by
  intro tool result
  refine ⟨?_, ?_, ?_, ?_⟩
  · intro h
    simp [log_tool_run, h, lookupField, assocLookup]
  · intro v hne hl hv
    cases v
    case null => exact absurd rfl hv
    all_goals simp [log_tool_run, hne, hl, lookupField, assocLookup]
  · intro hne hl
    simp [log_tool_run, hne, hl, lookupField, assocLookup]
  · intro hne hl
    simp [log_tool_run, hne, hl, lookupField, assocLookup]

/-- C5 witness: the three behaviours at concrete inputs. -/
theorem log_tool_run_spec_witness :
    lookupField (log_tool_run "t" "") "result" = none ∧
    lookupField (log_tool_run "t" "\x7b\"a\":1\x7d") "result" =
      some (JValue.obj [("a", JValue.num 1)]) ∧
    lookupField (log_tool_run "t" "not data") "result" =
      some (JValue.str "not data") :=
  ⟨(log_tool_run_spec "t" "").1 rfl,
   (log_tool_run_spec "t" "\x7b\"a\":1\x7d").2.1
     (JValue.obj [("a", JValue.num 1)]) (by decide) rfl
     (fun h => JValue.noConfusion h),
   (log_tool_run_spec "t" "not data").2.2.1 (by decide) rfl⟩

/-- A scan for a pattern that occurs nowhere in the input leaves the input
unchanged. -/
theorem pyReplaceAux_of_no_occurrence (pat rep : List Char) :
    ∀ (fuel : Nat) (s : List Char), ¬ pat <:+: s →
      pyReplaceAux pat rep fuel s = s := by
  intro fuel
  induction fuel with
  | zero => intro s _; rfl
  | succ n ih =>
    intro s h
    cases s with
    | nil => rfl
    | cons c rest =>
      have hnp : ¬(pat ≠ [] ∧ pat.isPrefixOf (c :: rest)) := by
        rintro ⟨-, hp⟩
        have hp2 := List.isPrefixOf_iff_prefix.mp hp
        exact h hp2.isInfix
      simp only [pyReplaceAux, if_neg hnp]
      exact congrArg (c :: ·) (ih rest (fun hi => h (List.infix_cons hi)))

/-- C6 counterexample: with `"Running... step"` — an ellipsis that is not
trailing — the claim predicts the completion message reuses the message
(as `specDerivedMessage`, modelled from the claim's words, shows), but the
code's `message.replace("...", " ✓")` rewrites the interior ellipsis. -/
theorem progress_ellipsis_counterexample :
    (progress "Running... step" "" (Except.ok ())).1 =
      [JValue.obj [("type", JValue.str "progress"),
                   ("status", JValue.str "start"),
                   ("message", JValue.str "Running... step")],
       JValue.obj [("type", JValue.str "progress"),
                   ("status", JValue.str "complete"),
                   ("message", JValue.str "Running ✓ step")]] ∧
    specDerivedMessage "Running... step" = "Running... step" ∧
    "Running ✓ step" ≠ "Running... step" :=
  ⟨rfl, rfl, by decide⟩

/-- C6 (amended): `progress` emits `{status: start, message}` on entry; on
normal completion it emits `{status: complete}` carrying the success
message or, when none is given, the message with every occurrence of an
ellipsis `...` replaced by a completion mark `" ✓"` (a message with no
ellipsis is reused; a trailing ellipsis becomes the mark, as in
`"Loading..."` → `"Loading ✓"`); on a failure inside the scope it emits
`{status: error, message: "<message> failed: <failure text>"}` and
re-raises the failure to the caller. -/
theorem progress_spec : ∀ (message success_message : String)
    (body : Except String Unit),
    (body = Except.ok () →
      progress message success_message body =
        ([JValue.obj [("type", JValue.str "progress"),
                      ("status", JValue.str "start"),
                      ("message", JValue.str message)],
          JValue.obj [("type", JValue.str "progress"),
                      ("status", JValue.str "complete"),
                      ("message", JValue.str
                        (if success_message = "" then deriveCompleted message
                         else success_message))]],
         Except.ok ())) ∧
    (∀ exc, body = Except.error exc →
      progress message success_message body =
        ([JValue.obj [("type", JValue.str "progress"),
                      ("status", JValue.str "start"),
                      ("message", JValue.str message)],
          JValue.obj [("type", JValue.str "progress"),
                      ("status", JValue.str "error"),
                      ("message", JValue.str (message ++ " failed: " ++ exc))]],
         Except.error exc)) ∧
    ((progress message success_message body).2 = body) ∧
    (¬ "...".data <:+: message.data → deriveCompleted message = message) ∧
    deriveCompleted "Loading..." = "Loading ✓" := by
  intro message success_message body
  refine ⟨?_, ?_, ?_, ?_, rfl⟩
  · rintro rfl
    rfl
  · rintro exc rfl
    rfl
  · cases body <;> rfl
  · intro h
    show String.mk (pyReplace "...".data " ✓".data message.data) = message
    unfold pyReplace
    rw [pyReplaceAux_of_no_occurrence _ _ _ _ h]

/-- C6 witness: the spec's own example, run through the scoped operation. -/
theorem progress_spec_witness :
    progress "Loading..." "" (Except.ok ()) =
      ([JValue.obj [("type", JValue.str "progress"),
                    ("status", JValue.str "start"),
                    ("message", JValue.str "Loading...")],
        JValue.obj [("type", JValue.str "progress"),
                    ("status", JValue.str "complete"),
                    ("message", JValue.str "Loading ✓")]],
       Except.ok ()) := by
  rw [(progress_spec "Loading..." "" (Except.ok ())).1 rfl]
  exact rfl

/-- Forwarded frames contribute no `popSession` action. -/
theorem countPop_yields (fs : List Frame) :
    countPop (fs.map GAction.yieldFrame) = 0 := by
  induction fs with
  | nil => rfl
  | cons f rest ih => simp [countPop, ih]

/-- Additivity: `countPop` distributes over concatenation. -/
theorem countPop_append (a b : List GAction) :
    countPop (a ++ b) = countPop a + countPop b := by
  induction a with
  | nil => simp [countPop]
  | cons x rest ih =>
    cases x
    · simp [countPop, ih]
    · simp [countPop, ih]
      omega

/-- Any prefix of forwarded frames contributes no `popSession` action. -/
theorem countPop_take_yields (fs : List Frame) (k : Nat) :
    countPop ((fs.map GAction.yieldFrame).take k) = 0 := by
  rw [← List.map_take]
  exact countPop_yields _

/-- C7 counterexample: a client disconnect right after the stream is opened
(`cancelAt = some 0`) closes the adapted generator before the loop ends;
with no `try`/`finally` around it, `self.sessions.pop(run_id, None)` never
runs — the trace is empty and contains no removal, against the claim that
the run_id is removed unconditionally after a disconnect. -/
theorem event_generator_disconnect_counterexample :
    event_generator [mkDoneEvent "ok"] (some 0) = [] ∧
    countPop (event_generator [mkDoneEvent "ok"] (some 0)) = 0 :=
  ⟨rfl, rfl⟩

/-- C7 (amended): the registry entry is removed only after the stream has
fully drained and never more than once — when the adapted generator
completes normally, the single removal follows all forwarded frames, and
the `pop` is idempotent; but when the client disconnects at or before the
last frame, the generator is closed mid-body and the entry is not removed
at all. -/
theorem event_generator_spec : ∀ (queue : List JValue) (cancelAt : Option Nat)
    (sessions : List (String × List JValue)) (rid : String),
    (event_generator queue none =
      (streamFrames queue).map GAction.yieldFrame ++ [GAction.popSession]) ∧
    (countPop (event_generator queue cancelAt) ≤ 1) ∧
    (∀ k, cancelAt = some k → k ≤ (streamFrames queue).length →
      countPop (event_generator queue cancelAt) = 0) ∧
    (popRegistry (popRegistry sessions rid) rid = popRegistry sessions rid) := by
  intro queue cancelAt sessions rid
  refine ⟨rfl, ?_, ?_, ?_⟩
  · unfold event_generator
    cases cancelAt with
    | none => simp [countPop_append, countPop_yields, countPop]
    | some k =>
      by_cases hk : k ≤ (streamFrames queue).length <;>
        simp [hk, countPop_append, countPop_yields, countPop_take_yields,
              countPop]
  · rintro k rfl hk
    unfold event_generator
    simp [hk, countPop_take_yields]
  · unfold popRegistry
    rw [List.filter_filter]
    simp

/-- C7 witness: a normally drained one-event stream, and an idempotent
removal on a concrete registry. -/
theorem event_generator_spec_witness :
    event_generator [mkErrorEvent "x"] none =
      [GAction.yieldFrame (Frame.mk (dumps (mkErrorEvent "x"))),
       GAction.popSession] ∧
    popRegistry (popRegistry [("r", [mkDoneEvent "a"])] "r") "r" =
      popRegistry [("r", [mkDoneEvent "a"])] "r" := by
  have h := event_generator_spec [mkErrorEvent "x"] none [("r", [mkDoneEvent "a"])] "r"
  exact ⟨h.1, h.2.2.2⟩

/-- Safe characters are emitted verbatim by the JSON string escaper. -/
theorem escapeChar_safe (c : Char) (h1 : c ≠ '"') (h2 : c ≠ '\\')
    (h3 : 32 ≤ c.toNat) : escapeChar c = [c] := by
  have hn : c ≠ '\n' := fun hc => absurd (hc ▸ h3) (by decide)
  have ht : c ≠ '\t' := fun hc => absurd (hc ▸ h3) (by decide)
  have hr : c ≠ '\r' := fun hc => absurd (hc ▸ h3) (by decide)
  have hb : c ≠ '\x08' := fun hc => absurd (hc ▸ h3) (by decide)
  have hf : c ≠ '\x0c' := fun hc => absurd (hc ▸ h3) (by decide)
  unfold escapeChar
  rw [if_neg h1, if_neg h2, if_neg hn, if_neg ht, if_neg hr, if_neg hb,
      if_neg hf, if_neg (by omega)]

/-- A string of safe characters passes through the escaper unchanged. -/
theorem escapeChars_safe (cs : List Char)
    (h : ∀ c ∈ cs, c ≠ '"' ∧ c ≠ '\\' ∧ 32 ≤ c.toNat) :
    escapeChars cs = cs := by
  induction cs with
  | nil => rfl
  | cons c rest ih =>
    have hc := h c (List.mem_cons_self c rest)
    rw [escapeChars, escapeChar_safe c hc.1 hc.2.1 hc.2.2,
        ih (fun d hd => h d (List.mem_cons_of_mem c hd))]
    rfl

/-- C8: a GET for a run_id the registry does not hold returns 404; for a
registered run_id it returns the SSE stream whose frames' `data` is the
JSON encoding of each yielded event; and the encoding preserves content
verbatim whenever no character needs escaping — in particular every
non-ASCII character is emitted unescaped. -/
theorem stream_events_spec : ∀ (sessions : List (String × List JValue))
    (rid : String),
    (registryGet sessions rid = none →
      stream_events sessions rid = Except.error 404) ∧
    (∀ q, registryGet sessions rid = some q →
      stream_events sessions rid =
        Except.ok ((streamPayloads q).map (fun p => Frame.mk (dumps p)))) ∧
    (∀ s : String, (∀ c ∈ s.data, c ≠ '"' ∧ c ≠ '\\' ∧ 32 ≤ c.toNat) →
      dumps (JValue.str s) = "\"" ++ s ++ "\"") ∧
    (∀ c : Char, 128 ≤ c.toNat → escapeChar c = [c]) := by
  intro sessions rid
  refine ⟨?_, ?_, ?_, ?_⟩
  · intro h
    unfold stream_events
    rw [h]
  · intro q h
    unfold stream_events
    rw [h]
    rfl
  · intro s h
    show "\"" ++ String.mk (escapeChars s.data) ++ "\"" = "\"" ++ s ++ "\""
    rw [escapeChars_safe s.data h]
  · intro c h
    exact escapeChar_safe c
      (fun hc => absurd (hc ▸ h) (by decide))
      (fun hc => absurd (hc ▸ h) (by decide))
      (by omega)

/-- C8 witness: an unknown run_id, a registered run_id, and a non-ASCII
payload string encoded verbatim. -/
theorem stream_events_spec_witness :
    stream_events [("r", [mkDoneEvent "é"])] "missing" = Except.error 404 ∧
    stream_events [("r", [mkDoneEvent "é"])] "r" =
      Except.ok ((streamPayloads [mkDoneEvent "é"]).map
        (fun p => Frame.mk (dumps p))) ∧
    dumps (JValue.str "héllo ✓") = "\"héllo ✓\"" := by
  have h := stream_events_spec [("r", [mkDoneEvent "é"])] "missing"
  have h2 := stream_events_spec [("r", [mkDoneEvent "é"])] "r"
  exact ⟨h.1 rfl, h2.2.1 [mkDoneEvent "é"] rfl, h2.2.2.1 "héllo ✓" (by decide)⟩

/-- C9 counterexample: a caller-supplied `max_steps` of `0` is falsy, so
`request.max_steps or 20` discards the supplied value and constructs the
executor with 20 — the default is not used "only when the caller did not
supply" the value. -/
theorem workerAgentArgs_zero_counterexample :
    workerAgentArgs (some 0) (some 3) = ⟨20, 3⟩ ∧ (0 : Int) ≠ 20 :=
  ⟨rfl, by decide⟩

/-- C9 (amended): the task executor is constructed with the caller-supplied
`max_steps` and `max_steps_per_task` whenever they are supplied and
non-zero; the defaults 20 and 5 are used when the caller did not supply a
value — and also when the supplied value is the falsy integer `0`
(Python's `or`-defaulting). -/
theorem workerAgentArgs_spec : ∀ (ms mspt : Option Int),
    ((ms = none ∨ ms = some 0) → (workerAgentArgs ms mspt).max_steps = 20) ∧
    (∀ n, ms = some n → n ≠ 0 → (workerAgentArgs ms mspt).max_steps = n) ∧
    ((mspt = none ∨ mspt = some 0) →
      (workerAgentArgs ms mspt).max_steps_per_task = 5) ∧
    (∀ n, mspt = some n → n ≠ 0 →
      (workerAgentArgs ms mspt).max_steps_per_task = n) := by
  intro ms mspt
  refine ⟨?_, ?_, ?_, ?_⟩
  · rintro (rfl | rfl) <;> rfl
  · rintro n rfl hn
    simp [workerAgentArgs, pyOrInt, hn]
  · rintro (rfl | rfl) <;> rfl
  · rintro n rfl hn
    simp [workerAgentArgs, pyOrInt, hn]

/-- C9 witness: supplied non-zero values pass through; absent values take
the defaults. -/
theorem workerAgentArgs_spec_witness :
    (workerAgentArgs (some 7) none).max_steps = 7 ∧
    (workerAgentArgs (some 7) none).max_steps_per_task = 5 :=
  ⟨(workerAgentArgs_spec (some 7) none).2.1 7 rfl (by decide),
   (workerAgentArgs_spec (some 7) none).2.2.1 (Or.inl rfl)⟩
